import Mathlib

/-!
# BusPulse live-fleet reconciliation: a shallow embedding

This file embeds the live-fleet state handling of the BusPulse app
(`src/srcApp.js`) in Lean 4 and proves properties about it.

The embedded parts are:

* the `live_fleet` row shape (from the SQL schema and the fields the app
  reads): `Row`, with every non-key field optional because realtime
  payloads are plain JS objects that may miss fields;
* the realtime channel callback (srcApp.js lines 81-90), which folds one
  inbound `postgres_changes` payload into the `buses` list:
  `handleFleetEvent`;
* the driver-dashboard projection (srcApp.js line 242),
  `buses.filter(b => b.route_no === '15')`: `driverRouteProjection`;
* the effect on the `live_fleet` table of one GPS broadcast
  (srcApp.js lines 96-115), which issues
  `UPDATE live_fleet SET lat, lng, updated_at WHERE route_no = '15'`:
  `broadcastPosition`; and the tracking toggle `toggleTracking`;
* the marker reconciliation of the `LiveMap` component
  (srcApp.js lines 35-59): `reconcileMarkers`, with each created marker
  carrying a fresh element token so that "the same visual element" is a
  provable notion.  The marker table is keyed by STRING keys, because JS
  coerces the property access `markers.current[bus.id]` to a string key
  (an `undefined` id becomes the key `"undefined"`, which is also what
  `Object.keys` hands the removal phase).

On JS `===`: in `handleFleetEvent` both operands are field VALUES, so it
is modelled by equality on `Option String` (`undefined === undefined` is
true).  In the marker removal check `buses.find(b => b.id === id)` the
right operand is a string key from `Object.keys`, so an `undefined`
`b.id` compares false against every key — `undefined === "undefined"` is
false — which `removeStaleMarkers` models by matching `b.id` against
`some key`.
-/

/-- One row of `live_fleet` as the React app sees it.  `id` and the other
fields are optional: a malformed payload can miss any of them.  Latitude,
longitude and timestamps are integers in the model. -/
structure Row where
  id : Option String
  route_no : Option String
  lat : Option Int
  lng : Option Int
  crowd_level : Option String
  last_stop : Option String
  is_active : Option Bool
  updated_at : Option Int
deriving DecidableEq, Repr

/-- A row with every field absent (a fully malformed payload object). -/
def Row.empty : Row :=
  { id := none, route_no := none, lat := none, lng := none,
    crowd_level := none, last_stop := none, is_active := none,
    updated_at := none }

/-- One inbound `postgres_changes` payload: an `eventType` string plus the
`new` and `old` row objects. -/
structure ChannelPayload where
  eventType : String
  new : Row
  old : Row
deriving DecidableEq, Repr

/-- The realtime subscription callback, srcApp.js lines 81-90:

    if (payload.eventType === 'INSERT') {
      setBuses(prev => [...prev, payload.new]);
    } else if (payload.eventType === 'UPDATE') {
      setBuses(prev => prev.map(b => b.id === payload.new.id ? payload.new : b));
    } else if (payload.eventType === 'DELETE') {
      setBuses(prev => prev.filter(b => b.id !== payload.old.id));
    }
-/
def handleFleetEvent (buses : List Row) (payload : ChannelPayload) : List Row :=
  if payload.eventType = "INSERT" then
    buses ++ [payload.new]
  else if payload.eventType = "UPDATE" then
    buses.map (fun b => if b.id = payload.new.id then payload.new else b)
  else if payload.eventType = "DELETE" then
    buses.filter (fun b => decide (b.id ≠ payload.old.id))
  else
    buses

/-- The driver-dashboard projection, srcApp.js line 242:
`buses.filter(b => b.route_no === '15')`. -/
def driverRouteProjection (buses : List Row) : List Row :=
  buses.filter (fun b => decide (b.route_no = some "15"))

/-- The effect on the `live_fleet` table of one position broadcast,
srcApp.js lines 102-110: the app runs
`supabase.from('live_fleet').update({lat, lng, updated_at}).eq('route_no', '15')`,
i.e. it sets `lat`, `lng` and `updated_at` on EVERY row whose
`route_no` is `'15'`. -/
def broadcastPosition (rows : List Row) (latitude longitude t : Int) :
    List Row :=
  rows.map (fun r =>
    if r.route_no = some "15" then
      { r with lat := some latitude, lng := some longitude,
               updated_at := some t }
    else r)

/-- The break/resume button, srcApp.js line 245:
`setIsTracking(prev => !prev)`. -/
def toggleTracking (isTracking : Bool) : Bool :=
  !isTracking

/-- The per-id uniqueness invariant the spec calls I1: each id occurs at
most once in the store. -/
def uniqueIds (buses : List Row) : Prop :=
  (buses.map Row.id).Nodup

instance (buses : List Row) : Decidable (uniqueIds buses) :=
  inferInstanceAs (Decidable ((buses.map Row.id).Nodup))

/-! ## Sample rows and payloads used in concrete counterexamples -/

/-- A well-formed stored snapshot for bus `"a"` on route 15, stored at
timestamp 5. -/
def rowA : Row :=
  { id := some "a", route_no := some "15", lat := some 10, lng := some 20,
    crowd_level := some "Low", last_stop := some "State Bank",
    is_active := some true, updated_at := some 5 }

/-- An `UPDATE` payload for bus `"a"` carrying timestamp 2, OLDER than
`rowA.updated_at = 5`; its payload misses most fields. -/
def staleUpdateA : ChannelPayload :=
  { eventType := "UPDATE",
    new := { Row.empty with id := some "a", lat := some 99,
                            updated_at := some 2 },
    old := rowA }

/-- A `DELETE` payload for bus `"a"`. -/
def deleteA : ChannelPayload :=
  { eventType := "DELETE", new := Row.empty, old := rowA }

/-- An `UPDATE` payload for bus `"a"` carrying timestamp 10, newer than
any earlier event for `"a"` in the examples. -/
def freshUpdateA : ChannelPayload :=
  { eventType := "UPDATE",
    new := { id := some "a", route_no := some "15", lat := some 30,
             lng := some 40, crowd_level := some "High",
             last_stop := some "Surathkal", is_active := some true,
             updated_at := some 10 },
    old := Row.empty }

/-- An `INSERT` payload carrying a copy of bus `"a"`. -/
def insertA : ChannelPayload :=
  { eventType := "INSERT", new := rowA, old := Row.empty }

/-! ## C10 -/

/-- C10: a channel payload whose `eventType` is none of `INSERT`,
`UPDATE`, `DELETE` takes no branch of the handler and leaves the store
completely unchanged. -/
theorem c10_unknown_event_noop (buses : List Row) (p : ChannelPayload)
    (h1 : p.eventType ≠ "INSERT") (h2 : p.eventType ≠ "UPDATE")
    (h3 : p.eventType ≠ "DELETE") :
    handleFleetEvent buses p = buses := by
  simp [handleFleetEvent, h1, h2, h3]

/-- Witness for C10 at a concrete `TRUNCATE` payload. -/
theorem c10_unknown_event_noop_witness :
    handleFleetEvent [rowA]
      { eventType := "TRUNCATE", new := Row.empty, old := Row.empty } =
      [rowA] :=
  c10_unknown_event_noop [rowA] _ (by decide) (by decide) (by decide)

/-! ## C2 -/

/-- C2 counterexample: applying the same `INSERT` payload twice to the
empty store yields a two-element store, not the one-element store a single
application yields, so applying the same ChangeEvent twice is NOT always
the same as applying it once. -/
theorem c2_counterexample :
    handleFleetEvent (handleFleetEvent [] insertA) insertA ≠
      handleFleetEvent [] insertA := by
  decide

/-- C2 amended: `UPDATE` and `DELETE` payloads are idempotent; `INSERT`
payloads are not (each application appends another copy of the row). -/
theorem c2_amended_update_delete_idempotent (buses : List Row)
    (p : ChannelPayload)
    (h : p.eventType = "UPDATE" ∨ p.eventType = "DELETE") :
    handleFleetEvent (handleFleetEvent buses p) p =
      handleFleetEvent buses p := by
  rcases h with h | h
  · simp only [handleFleetEvent, h, String.reduceEq, reduceIte, List.map_map]
    refine List.map_congr_left ?_
    intro b _
    by_cases hb : b.id = p.new.id <;> simp [hb, Function.comp]
  · simp only [handleFleetEvent, h, String.reduceEq, reduceIte,
      List.filter_filter]
    refine List.filter_congr ?_
    intro b _
    simp

/-- Witness for the amended C2 at a concrete `UPDATE` payload. -/
theorem c2_amended_update_delete_idempotent_witness :
    handleFleetEvent (handleFleetEvent [rowA] freshUpdateA) freshUpdateA =
      handleFleetEvent [rowA] freshUpdateA :=
  c2_amended_update_delete_idempotent [rowA] freshUpdateA (Or.inl rfl)

/-! ## C1 -/

/-- C1 counterexample: the stored snapshot for `"a"` has
`updated_at = 5`; an inbound `UPDATE` for `"a"` carrying the older
timestamp 2 is NOT a no-op — the handler replaces the stored snapshot
with the stale payload (no timestamp comparison exists in the code). -/
theorem c1_counterexample :
    rowA.updated_at = some 5 ∧ staleUpdateA.new.updated_at = some 2 ∧
      handleFleetEvent [rowA] staleUpdateA ≠ [rowA] := by
  decide

/-- C1 amended: the handler applies `UPDATE` payloads with no timestamp
guard, so arrival order — not timestamp — decides the winner: applying
two `UPDATE` payloads for the same id in sequence always leaves the
second payload's row, the first being overwritten regardless of either
event's timestamp. -/
theorem c1_amended_second_update_wins (buses : List Row)
    (p1 p2 : ChannelPayload)
    (h1 : p1.eventType = "UPDATE") (h2 : p2.eventType = "UPDATE")
    (hid : p1.new.id = p2.new.id) :
    handleFleetEvent (handleFleetEvent buses p1) p2 =
      handleFleetEvent buses p2 := by
  simp only [handleFleetEvent, h1, h2, String.reduceEq, reduceIte,
    List.map_map]
  refine List.map_congr_left ?_
  intro b _
  by_cases hb : b.id = p1.new.id
  · simp [Function.comp, hb, hid]
  · simp [Function.comp, hb, hid ▸ hb]

/-- Witness for the amended C1: the fresh update for `"a"` applied after
the stale one leaves exactly the store the fresh one alone produces. -/
theorem c1_amended_second_update_wins_witness :
    handleFleetEvent (handleFleetEvent [rowA] staleUpdateA) freshUpdateA =
      handleFleetEvent [rowA] freshUpdateA :=
  c1_amended_second_update_wins [rowA] staleUpdateA freshUpdateA rfl rfl
    (by decide)

/-! ## C3 -/

/-- C3 counterexample: after `DELETE` removes bus `"a"`, an `UPDATE` for
`"a"` with timestamp 10 (newer than the deleted row's `updated_at = 5`)
does NOT re-create the entity: `prev.map` over a store with no matching
row changes nothing, so the store stays empty. -/
theorem c3_counterexample :
    rowA.updated_at = some 5 ∧ freshUpdateA.new.updated_at = some 10 ∧
      handleFleetEvent (handleFleetEvent [rowA] deleteA) freshUpdateA
        = [] := by
  decide

/-- C3 amended: an `UPDATE` payload whose id matches no stored row is a
no-op — after a Delete removes an entity, no later Update re-creates it
(there is no implicit re-Insert in the code). -/
theorem c3_amended_update_absent_noop (buses : List Row)
    (p : ChannelPayload) (hup : p.eventType = "UPDATE")
    (habs : ∀ b ∈ buses, b.id ≠ p.new.id) :
    handleFleetEvent buses p = buses := by
  simp only [handleFleetEvent, hup, String.reduceEq, reduceIte]
  conv_rhs => rw [← List.map_id buses]
  refine List.map_congr_left ?_
  intro b hb
  simp [habs b hb]

/-- Witness for the amended C3 at a concrete absent-id update. -/
theorem c3_amended_update_absent_noop_witness :
    handleFleetEvent [] freshUpdateA = [] :=
  c3_amended_update_absent_noop [] freshUpdateA rfl (by simp)

/-! ## C4 -/

/-- C4 counterexample: the store `[rowA]` satisfies at-most-one-row-per-id,
but an inbound `INSERT` whose row carries the already-present id `"a"` is
appended unconditionally, leaving two rows with id `"a"`. -/
theorem c4_counterexample :
    uniqueIds [rowA] ∧ ¬ uniqueIds (handleFleetEvent [rowA] insertA) := by
  decide

/-- C4 amended: `UPDATE` and `DELETE` preserve the at-most-one-row-per-id
invariant, and `INSERT` preserves it only when the inserted id is not
already present; an `INSERT` for a present id violates it by appending a
duplicate row. -/
theorem c4_amended_uniqueness (buses : List Row) (p : ChannelPayload)
    (h : uniqueIds buses)
    (hk : p.eventType = "UPDATE" ∨ p.eventType = "DELETE" ∨
      (p.eventType = "INSERT" ∧ ∀ b ∈ buses, b.id ≠ p.new.id)) :
    uniqueIds (handleFleetEvent buses p) := by
  unfold uniqueIds at h ⊢
  rcases hk with h1 | h1 | ⟨h1, habs⟩
  · simp only [handleFleetEvent, h1, String.reduceEq, reduceIte,
      List.map_map]
    have hsame :
        buses.map (Row.id ∘ fun b => if b.id = p.new.id then p.new else b) =
          buses.map Row.id := by
      refine List.map_congr_left ?_
      intro b _
      by_cases hb : b.id = p.new.id <;> simp [Function.comp, hb]
    rw [hsame]
    exact h
  · simp only [handleFleetEvent, h1, String.reduceEq, reduceIte]
    exact ((List.filter_sublist buses).map Row.id).nodup h
  · simp only [handleFleetEvent, h1, String.reduceEq, reduceIte,
      List.map_append, List.map_cons, List.map_nil]
    rw [List.nodup_append]
    refine ⟨h, List.nodup_singleton _, ?_⟩
    intro x hx hx'
    simp only [List.mem_singleton] at hx'
    rcases List.mem_map.1 hx with ⟨b, hb, rfl⟩
    exact habs b hb hx'

/-- Witness for the amended C4 at a concrete `UPDATE` payload. -/
theorem c4_amended_uniqueness_witness :
    uniqueIds (handleFleetEvent [rowA] freshUpdateA) :=
  c4_amended_uniqueness [rowA] freshUpdateA (by decide) (Or.inl rfl)

/-! ## C5 -/

/-- An INACTIVE snapshot on route 15: the SQL schema's `is_active` is
false, yet the row matches the route filter. -/
def rowInactive15 : Row :=
  { id := some "c", route_no := some "15", lat := some 3, lng := some 4,
    crowd_level := some "Low", last_stop := some "Pumpwell",
    is_active := some false, updated_at := some 7 }

/-- C5 counterexample: the projection keeps an inactive entity whose
`route_no` is `"15"` — the code's filter tests only `route_no`, never
`is_active`, so inactive entities are NOT excluded. -/
theorem c5_counterexample :
    rowInactive15.is_active = some false ∧
      driverRouteProjection [rowInactive15] = [rowInactive15] := by
  decide

/-- C5 amended: the projection returns exactly the entities whose
`route_no` is `"15"` — in particular regardless of `is_active` — and it
is a sublist of the store, so its order is the store's order (stable). -/
theorem c5_amended_route_projection (buses : List Row) (b : Row) :
    (b ∈ driverRouteProjection buses ↔
      b ∈ buses ∧ b.route_no = some "15") ∧
    (driverRouteProjection buses).Sublist buses := by
  refine ⟨?_, List.filter_sublist buses⟩
  simp [driverRouteProjection, List.mem_filter]

/-! ## C6 -/

/-- An `UPDATE` payload for present bus `"a"` with a NEWER timestamp
(9 > 5), whose row misses `last_stop`, `route_no`, `lng`, `crowd_level`
and `is_active`. -/
def partialFreshUpdateA : ChannelPayload :=
  { eventType := "UPDATE",
    new := { Row.empty with id := some "a", lat := some 50,
                            updated_at := some 9 },
    old := rowA }

/-- C6 counterexample: an accepted (newer-timestamped) `UPDATE` for the
present id `"a"` whose payload misses `last_stop` does NOT retain the
stored `last_stop = "State Bank"`: the handler replaces the stored row
with the payload wholesale, so the resulting snapshot has
`last_stop = none`. -/
theorem c6_counterexample :
    rowA.updated_at = some 5 ∧
      partialFreshUpdateA.new.updated_at = some 9 ∧
      rowA.last_stop = some "State Bank" ∧
      handleFleetEvent [rowA] partialFreshUpdateA =
        [partialFreshUpdateA.new] ∧
      partialFreshUpdateA.new.last_stop = none := by
  decide

/-- C6 amended: an `UPDATE` replaces every stored row whose id matches the
payload's id with the payload row WHOLESALE (no field merge: fields absent
from the payload are lost), leaves non-matching rows untouched, and
preserves positions and length. -/
theorem c6_amended_update_replaces_wholesale (buses : List Row)
    (p : ChannelPayload) (hup : p.eventType = "UPDATE") (i : Nat) :
    (handleFleetEvent buses p)[i]? =
      buses[i]?.map
        (fun b => if b.id = p.new.id then p.new else b) := by
  simp only [handleFleetEvent, hup, String.reduceEq, reduceIte,
    List.getElem?_map]

/-- Witness for the amended C6: the partial update applied to `[rowA]`
puts exactly the payload row at position 0. -/
theorem c6_amended_update_replaces_wholesale_witness :
    (handleFleetEvent [rowA] partialFreshUpdateA)[0]? =
      [rowA][0]?.map
        (fun b => if b.id = partialFreshUpdateA.new.id
                  then partialFreshUpdateA.new else b) :=
  c6_amended_update_replaces_wholesale [rowA] partialFreshUpdateA rfl 0

/-! ## C7 -/

/-- A second active snapshot on route 15, distinct from `rowA`. -/
def rowD15 : Row :=
  { id := some "d", route_no := some "15", lat := some 70, lng := some 80,
    crowd_level := some "Medium", last_stop := some "Kankanady",
    is_active := some true, updated_at := some 6 }

/-- C7 counterexample: one position broadcast writes `lat` on BOTH rows
whose `route_no` is `"15"` — two distinct ids — so a broadcast is not an
update of exactly one (self) entity and it does change another entity's
stored fields. -/
theorem c7_counterexample :
    rowA.id ≠ rowD15.id ∧
      [rowA, rowD15].map Row.lat = [some 10, some 70] ∧
      (broadcastPosition [rowA, rowD15] 1 2 9).map Row.lat =
        [some 1, some 1] := by
  decide

/-- C7 amended: a position broadcast updates `lat`, `lng` and
`updated_at` of EVERY row whose `route_no` is the hard-coded `"15"`
(possibly several entities), leaves every row on another route unchanged,
and the break/resume toggle applied twice returns to the initial
tracking state. -/
theorem c7_amended_broadcast_by_route (rows : List Row)
    (latitude longitude t : Int) :
    (∀ b ∈ rows, b.route_no ≠ some "15" →
        b ∈ broadcastPosition rows latitude longitude t) ∧
    (∀ b ∈ broadcastPosition rows latitude longitude t,
        b.route_no = some "15" →
          b.lat = some latitude ∧ b.lng = some longitude ∧
            b.updated_at = some t) ∧
    (∀ s : Bool, toggleTracking (toggleTracking s) = s) := by
  refine ⟨?_, ?_, ?_⟩
  · intro b hb hroute
    refine List.mem_map.2 ⟨b, hb, ?_⟩
    simp [hroute]
  · intro b hb hroute
    simp only [broadcastPosition, List.mem_map] at hb
    obtain ⟨a, _, rfl⟩ := hb
    by_cases hra : a.route_no = some "15" <;> simp [hra] at hroute ⊢
  · intro s
    cases s <;> rfl

/-! ## C8 -/

/-- An `INSERT` payload whose row misses every field, id included. -/
def malformedInsert : ChannelPayload :=
  { eventType := "INSERT", new := Row.empty, old := Row.empty }

/-- An `INSERT` payload whose position (999, 999) is far outside the
valid range [-90,90] x [-180,180]. -/
def outOfRangeInsert : ChannelPayload :=
  { eventType := "INSERT",
    new := { Row.empty with id := some "z", lat := some 999,
                            lng := some 999, updated_at := some 1 },
    old := Row.empty }

/-- C8 counterexample: a fully malformed event (every required field
missing) and an event with position (999, 999) both mutate the store —
the handler has no validation and does not reject them as no-ops. -/
theorem c8_counterexample :
    malformedInsert.new.id = none ∧
      handleFleetEvent [] malformedInsert ≠ [] ∧
      outOfRangeInsert.new.lat = some 999 ∧
      handleFleetEvent [] outOfRangeInsert ≠ [] := by
  decide

/-- C8 amended: the handler performs no validation at all: EVERY
`INSERT` payload — malformed or out-of-range included — is appended,
growing the store by one row; there is no rejection (and, the handler
being a total function, no exception either). -/
theorem c8_amended_no_validation (buses : List Row) (p : ChannelPayload)
    (h : p.eventType = "INSERT") :
    (handleFleetEvent buses p).length = buses.length + 1 := by
  simp [handleFleetEvent, h]

/-- Witness for the amended C8 at the fully malformed payload. -/
theorem c8_amended_no_validation_witness :
    (handleFleetEvent [] malformedInsert).length =
      ([] : List Row).length + 1 :=
  c8_amended_no_validation [] malformedInsert rfl


/-! ## C9: LiveMap marker reconciliation (srcApp.js lines 35-59)

`markers.current` is a JS object.  Its property keys are STRINGS: writing
`markers.current[bus.id]` coerces `bus.id` to a string key, so a bus with
an `undefined` id stores and finds its marker under the key
`"undefined"`, and `Object.keys(markers.current)` hands the removal phase
those string keys.  The removal check `buses.find(b => b.id === id)`
compares the id VALUE `b.id` against the string key `id`, so an
`undefined` `b.id` matches no key.  The table is modelled as an
association list over `String` keys.  Each marker records the identity
token of the DOM element created for it (`document.createElement('div')`
in the code) and the last position passed to `setLngLat`; a fresh token
is drawn from a counter at each creation, so "the same visual element"
is expressible as equality of tokens. -/

/-- One mapbox marker: the identity of its visual element and its last
`setLngLat` position (`[bus.lng, bus.lat]` in the code). -/
structure Marker where
  element : Nat
  lngLat : Option Int × Option Int
deriving DecidableEq, Repr

/-- JS property-key coercion: the string key under which
`markers.current[bus.id]` stores a marker.  An `undefined` id coerces to
the key `"undefined"`. -/
def markerKey (id : Option String) : String :=
  match id with
  | some s => s
  | none => "undefined"

/-- `markers.current[k]`: the first (only) entry with the given key. -/
def getMarker (ms : List (String × Marker)) (k : String) :
    Option Marker :=
  (ms.find? (fun q => decide (q.1 = k))).map Prod.snd

/-- `markers.current[k].setLngLat(pos)`: update the position of the
entries with the given key, keeping their element. -/
def setMarkerPos (ms : List (String × Marker)) (k : String)
    (pos : Option Int × Option Int) : List (String × Marker) :=
  ms.map (fun q => if q.1 = k then (q.1, { q.2 with lngLat := pos }) else q)

/-- The removal phase, srcApp.js lines 39-44: for every string key `id`
of the table, the marker is kept only if `buses.find(b => b.id === id)`
succeeds — a VALUE-against-key comparison, so only a bus whose id is the
string `some q.1` protects the entry (an `undefined` id protects
nothing); otherwise the marker is `.remove()`d and deleted. -/
def removeStaleMarkers (ms : List (String × Marker))
    (buses : List Row) : List (String × Marker) :=
  ms.filter (fun q => buses.any (fun b => decide (b.id = some q.1)))

/-- The `buses.forEach` phase, srcApp.js lines 47-58: for each bus in
order, the lookup `markers.current[bus.id]` coerces `bus.id` to the
string key `markerKey bus.id`; if a marker exists there it is moved with
`setLngLat`, otherwise a fresh element is created (token = the counter)
and a new marker is stored under that key.  The counter is threaded as
the second component. -/
def upsertMarkers (buses : List Row)
    (st : List (String × Marker) × Nat) :
    List (String × Marker) × Nat :=
  match buses with
  | [] => st
  | bus :: rest =>
      if (getMarker st.1 (markerKey bus.id)).isSome then
        upsertMarkers rest
          (setMarkerPos st.1 (markerKey bus.id) (bus.lng, bus.lat), st.2)
      else
        upsertMarkers rest
          (st.1 ++ [(markerKey bus.id, ⟨st.2, (bus.lng, bus.lat)⟩)],
            st.2 + 1)

/-- The whole reconciliation effect of the second `useEffect` of
`LiveMap` (srcApp.js lines 35-59): removal phase, then upsert phase. -/
def reconcileMarkers (ms : List (String × Marker)) (ctr : Nat)
    (buses : List Row) : List (String × Marker) × Nat :=
  upsertMarkers buses (removeStaleMarkers ms buses, ctr)

theorem getMarker_nil (k : String) :
    getMarker [] k = none := rfl

theorem getMarker_cons (q : String × Marker)
    (ms : List (String × Marker)) (k : String) :
    getMarker (q :: ms) k =
      if q.1 = k then some q.2 else getMarker ms k := by
  by_cases hq : q.1 = k <;> simp [getMarker, List.find?_cons, hq]

theorem getMarker_setMarkerPos_self (ms : List (String × Marker))
    (k : String) (pos : Option Int × Option Int) :
    getMarker (setMarkerPos ms k pos) k =
      (getMarker ms k).map (fun m => { m with lngLat := pos }) := by
  induction ms with
  | nil => rfl
  | cons q rest ih =>
      by_cases hq : q.1 = k
      · simp [setMarkerPos, getMarker_cons, hq]
      · simpa [setMarkerPos, getMarker_cons, hq] using ih

theorem getMarker_setMarkerPos_ne (ms : List (String × Marker))
    (k k' : String) (pos : Option Int × Option Int)
    (hne : k' ≠ k) :
    getMarker (setMarkerPos ms k pos) k' = getMarker ms k' := by
  induction ms with
  | nil => rfl
  | cons q rest ih =>
      have hkk' : k ≠ k' := Ne.symm hne
      by_cases hq : q.1 = k
      · simpa [setMarkerPos, getMarker_cons, hq, hkk', hne] using ih
      · by_cases hq' : q.1 = k'
        · simp [setMarkerPos, getMarker_cons, hq, hq', hne]
        · simpa [setMarkerPos, getMarker_cons, hq, hq'] using ih

theorem getMarker_append_of_some (ms ms' : List (String × Marker))
    (k : String) (m : Marker) (h : getMarker ms k = some m) :
    getMarker (ms ++ ms') k = some m := by
  induction ms with
  | nil => simp [getMarker_nil] at h
  | cons q rest ih =>
      rw [getMarker_cons] at h
      by_cases hq : q.1 = k
      · simpa [getMarker_cons, hq] using h
      · rw [if_neg hq] at h
        simpa [getMarker_cons, hq] using ih h

theorem getMarker_append_of_none (ms ms' : List (String × Marker))
    (k : String) (h : getMarker ms k = none) :
    getMarker (ms ++ ms') k = getMarker ms' k := by
  induction ms with
  | nil => simp
  | cons q rest ih =>
      rw [getMarker_cons] at h
      by_cases hq : q.1 = k
      · simp [hq] at h
      · rw [if_neg hq] at h
        simpa [getMarker_cons, hq] using ih h

theorem getMarker_filter_of_kept (ms : List (String × Marker))
    (f : String × Marker → Bool) (k : String)
    (hk : ∀ p ∈ ms, p.1 = k → f p = true) :
    getMarker (ms.filter f) k = getMarker ms k := by
  induction ms with
  | nil => rfl
  | cons p rest ih =>
      have ih' := ih fun r hr => hk r (List.mem_cons_of_mem p hr)
      by_cases hfp : f p = true
      · rw [List.filter_cons, if_pos hfp, getMarker_cons, getMarker_cons]
        by_cases hp : p.1 = k
        · simp [hp]
        · simp [hp, ih']
      · have hp : p.1 ≠ k :=
          fun h => hfp (hk p (List.mem_cons_self p rest) h)
        rw [List.filter_cons, if_neg hfp, getMarker_cons, if_neg hp]
        exact ih'

theorem getMarker_filter_of_dropped (ms : List (String × Marker))
    (f : String × Marker → Bool) (k : String)
    (hk : ∀ p ∈ ms, p.1 = k → f p = false) :
    getMarker (ms.filter f) k = none := by
  have hfind :
      (ms.filter f).find? (fun q => decide (q.1 = k)) = none := by
    rw [List.find?_eq_none]
    intro x hx
    rw [List.mem_filter] at hx
    simp only [decide_eq_true_eq]
    intro hxk
    have := hk x hx.1 hxk
    rw [hx.2] at this
    exact Bool.noConfusion this
  simp [getMarker, hfind]

theorem getMarker_filter_of_none (ms : List (String × Marker))
    (f : String × Marker → Bool) (k : String)
    (h : getMarker ms k = none) :
    getMarker (ms.filter f) k = none := by
  simp only [getMarker, Option.map_eq_none'] at h ⊢
  rw [List.find?_eq_none] at h ⊢
  intro x hx
  exact h x (List.mem_filter.1 hx).1

theorem getMarker_upsert_untouched (buses : List Row)
    (st : List (String × Marker) × Nat) (k : String)
    (m : Marker) (hm : getMarker st.1 k = some m)
    (hk : ∀ b ∈ buses, markerKey b.id ≠ k) :
    getMarker (upsertMarkers buses st).1 k = some m := by
  induction buses generalizing st with
  | nil => exact hm
  | cons bus rest ih =>
      have hbk : markerKey bus.id ≠ k :=
        hk bus (List.mem_cons_self bus rest)
      have hk' : ∀ b ∈ rest, markerKey b.id ≠ k :=
        fun b hb => hk b (List.mem_cons_of_mem bus hb)
      by_cases hc : (getMarker st.1 (markerKey bus.id)).isSome
      · rw [upsertMarkers, if_pos hc]
        refine ih _ ?_ hk'
        rw [getMarker_setMarkerPos_ne st.1 (markerKey bus.id) k _
          (Ne.symm hbk)]
        exact hm
      · rw [upsertMarkers, if_neg hc]
        exact ih _ (getMarker_append_of_some _ _ _ _ hm) hk'

theorem getMarker_upsert_none (buses : List Row)
    (st : List (String × Marker) × Nat) (k : String)
    (hm : getMarker st.1 k = none)
    (hk : ∀ b ∈ buses, markerKey b.id ≠ k) :
    getMarker (upsertMarkers buses st).1 k = none := by
  induction buses generalizing st with
  | nil => exact hm
  | cons bus rest ih =>
      have hbk : markerKey bus.id ≠ k :=
        hk bus (List.mem_cons_self bus rest)
      have hk' : ∀ b ∈ rest, markerKey b.id ≠ k :=
        fun b hb => hk b (List.mem_cons_of_mem bus hb)
      by_cases hc : (getMarker st.1 (markerKey bus.id)).isSome
      · rw [upsertMarkers, if_pos hc]
        refine ih _ ?_ hk'
        rw [getMarker_setMarkerPos_ne st.1 (markerKey bus.id) k _
          (Ne.symm hbk)]
        exact hm
      · rw [upsertMarkers, if_neg hc]
        refine ih _ ?_ hk'
        rw [getMarker_append_of_none _ _ _ hm, getMarker_cons,
          if_neg hbk, getMarker_nil]

theorem getMarker_upsert_present (buses : List Row)
    (st : List (String × Marker) × Nat) (b : Row) (m : Marker)
    (hmem : b ∈ buses)
    (hnodup : (buses.map (fun r => markerKey r.id)).Nodup)
    (hm : getMarker st.1 (markerKey b.id) = some m) :
    getMarker (upsertMarkers buses st).1 (markerKey b.id) =
      some ⟨m.element, (b.lng, b.lat)⟩ := by
  induction buses generalizing st with
  | nil => cases hmem
  | cons bus rest ih =>
      rw [List.map_cons, List.nodup_cons] at hnodup
      rcases List.mem_cons.1 hmem with rfl | hmem'
      · rw [upsertMarkers, if_pos (by rw [hm]; rfl)]
        have hnew :
            getMarker
              (setMarkerPos st.1 (markerKey b.id) (b.lng, b.lat))
              (markerKey b.id) =
              some ⟨m.element, (b.lng, b.lat)⟩ := by
          rw [getMarker_setMarkerPos_self, hm]
          rfl
        refine getMarker_upsert_untouched rest _ _ _ hnew ?_
        intro r hr h
        refine hnodup.1 ?_
        rw [← h]
        exact List.mem_map_of_mem _ hr
      · have hbk : markerKey bus.id ≠ markerKey b.id := by
          intro h
          refine hnodup.1 ?_
          rw [h]
          exact List.mem_map_of_mem _ hmem'
        by_cases hc : (getMarker st.1 (markerKey bus.id)).isSome
        · rw [upsertMarkers, if_pos hc]
          refine ih _ hmem' hnodup.2 ?_
          rw [getMarker_setMarkerPos_ne st.1 (markerKey bus.id)
            (markerKey b.id) _ (Ne.symm hbk)]
          exact hm
        · rw [upsertMarkers, if_neg hc]
          exact ih _ hmem' hnodup.2 (getMarker_append_of_some _ _ _ _ hm)

theorem getMarker_upsert_created (buses : List Row)
    (st : List (String × Marker) × Nat) (b : Row)
    (hmem : b ∈ buses)
    (hnodup : (buses.map (fun r => markerKey r.id)).Nodup)
    (hm : getMarker st.1 (markerKey b.id) = none) :
    ∃ e : Nat, getMarker (upsertMarkers buses st).1 (markerKey b.id) =
      some ⟨e, (b.lng, b.lat)⟩ := by
  induction buses generalizing st with
  | nil => cases hmem
  | cons bus rest ih =>
      rw [List.map_cons, List.nodup_cons] at hnodup
      rcases List.mem_cons.1 hmem with rfl | hmem'
      · rw [upsertMarkers, if_neg (by rw [hm]; exact Bool.false_ne_true)]
        have hnew :
            getMarker
              (st.1 ++ [(markerKey b.id, ⟨st.2, (b.lng, b.lat)⟩)])
              (markerKey b.id) =
              some ⟨st.2, (b.lng, b.lat)⟩ := by
          rw [getMarker_append_of_none _ _ _ hm, getMarker_cons]
          simp
        refine ⟨st.2, getMarker_upsert_untouched rest _ _ _ hnew ?_⟩
        intro r hr h
        refine hnodup.1 ?_
        rw [← h]
        exact List.mem_map_of_mem _ hr
      · have hbk : markerKey bus.id ≠ markerKey b.id := by
          intro h
          refine hnodup.1 ?_
          rw [h]
          exact List.mem_map_of_mem _ hmem'
        by_cases hc : (getMarker st.1 (markerKey bus.id)).isSome
        · rw [upsertMarkers, if_pos hc]
          refine ih _ hmem' hnodup.2 ?_
          rw [getMarker_setMarkerPos_ne st.1 (markerKey bus.id)
            (markerKey b.id) _ (Ne.symm hbk)]
          exact hm
        · rw [upsertMarkers, if_neg hc]
          refine ih _ hmem' hnodup.2 ?_
          rw [getMarker_append_of_none _ _ _ hm, getMarker_cons,
            if_neg hbk, getMarker_nil]

theorem markerKey_some (s : String) : markerKey (some s) = s := rfl

/-- A bus row with NO id (`bus.id` is `undefined` in JS), positioned at
(lng 6, lat 5). -/
def rowNoId : Row :=
  { Row.empty with lat := some 5, lng := some 6 }

/-- A marker table holding one marker stored under the coerced key
`"undefined"` (created for an id-less bus on an earlier pass), with
element token 0, already at the bus's position. -/
def markersU : List (String × Marker) :=
  [("undefined", ⟨0, (some 6, some 5)⟩)]

/-- C9 counterexample: a bus with an `undefined` id stays present across
the projection, and its marker exists (under the coerced string key
`"undefined"`, element token 0), yet reconciliation does NOT move that
marker in place: the removal check compares the id VALUE `undefined`
against the string key `"undefined"`, which JS `===` makes false, so the
marker is `.remove()`d (destroyed) and then recreated with a NEW visual
element (token 1 ≠ 0) — contradicting "present in both ⇒ setLngLat only,
same visual element, never destroyed and recreated". -/
theorem c9_counterexample :
    rowNoId.id = none ∧
      getMarker markersU "undefined" = some ⟨0, (some 6, some 5)⟩ ∧
      getMarker (removeStaleMarkers markersU [rowNoId]) "undefined" =
        none ∧
      getMarker (reconcileMarkers markersU 1 [rowNoId]).1 "undefined" =
        some ⟨1, (some 6, some 5)⟩ := by
  decide

/-- C9 amended: over the string-keyed marker table, reconciliation
(i) creates a marker, positioned at the bus, for every bus whose coerced
key has no existing marker; (ii) for every bus with a PRESENT id `s` and
an existing marker under `s`, keeps that marker's visual element (same
element token — the marker is moved with `setLngLat`, never destroyed
and recreated) and updates its position to the bus's; (iii) removes the
marker of every key that no bus's coerced key matches; but (iv) a bus
whose id is absent (`undefined`) protects no marker: whenever no bus has
the literal string id `"undefined"`, the removal phase deletes the
marker stored under the key `"undefined"` even if an id-less bus is in
the list — such a marker is destroyed (and, by (i), recreated with a
fresh element) on every pass. -/
theorem c9_amended_marker_reconciliation
    (ms : List (String × Marker)) (ctr : Nat) (buses : List Row)
    (hnodup : (buses.map (fun r => markerKey r.id)).Nodup) :
    (∀ b ∈ buses, getMarker ms (markerKey b.id) = none →
        ∃ e : Nat,
          getMarker (reconcileMarkers ms ctr buses).1 (markerKey b.id) =
            some ⟨e, (b.lng, b.lat)⟩) ∧
    (∀ b ∈ buses, ∀ s : String, b.id = some s →
        ∀ m : Marker, getMarker ms s = some m →
          getMarker (reconcileMarkers ms ctr buses).1 s =
            some ⟨m.element, (b.lng, b.lat)⟩) ∧
    (∀ k : String, (∀ b ∈ buses, markerKey b.id ≠ k) →
        getMarker (reconcileMarkers ms ctr buses).1 k = none) ∧
    ((∀ b ∈ buses, b.id ≠ some "undefined") →
        getMarker (removeStaleMarkers ms buses) "undefined" = none) := by
  refine ⟨?_, ?_, ?_, ?_⟩
  · intro b hb hnone
    exact getMarker_upsert_created buses _ b hb hnodup
      (getMarker_filter_of_none ms _ (markerKey b.id) hnone)
  · intro b hb s hid m hsome
    have hkey : markerKey b.id = s := by rw [hid, markerKey_some]
    rw [← hkey] at hsome ⊢
    refine getMarker_upsert_present buses _ b m hb hnodup ?_
    show getMarker (removeStaleMarkers ms buses) (markerKey b.id) =
      some m
    rw [removeStaleMarkers, getMarker_filter_of_kept]
    · exact hsome
    · intro p _ hpk
      refine List.any_eq_true.2 ⟨b, hb, ?_⟩
      simp [hid, hpk, hkey, markerKey_some]
  · intro k hk
    refine getMarker_upsert_none buses _ k ?_ hk
    refine getMarker_filter_of_dropped ms _ k ?_
    intro p _ hpk
    rw [List.any_eq_false]
    intro b hb
    simp only [hpk, decide_eq_true_eq]
    intro hbk
    exact hk b hb (by rw [hbk, markerKey_some])
  · intro hnb
    refine getMarker_filter_of_dropped ms _ "undefined" ?_
    intro p _ hpk
    rw [List.any_eq_false]
    intro b hb
    simp only [hpk, decide_eq_true_eq]
    exact hnb b hb

/-- A marker table holding one marker: bus `"a"` under the key `"a"`
with element token 0, positioned at `rowA`'s coordinates. -/
def markersA : List (String × Marker) :=
  [("a", ⟨0, (some 20, some 10)⟩)]

/-- Witness for the amended C9 at the concrete marker table `markersA`
and the bus list `[rowA, rowD15]`: `"a"` keeps element 0 and is moved,
`"d"` gets a fresh marker, any unmatched key ends with no marker, and
the `"undefined"` key is cleared by the removal phase. -/
theorem c9_amended_marker_reconciliation_witness :
    (∀ b ∈ [rowA, rowD15], getMarker markersA (markerKey b.id) = none →
        ∃ e : Nat,
          getMarker (reconcileMarkers markersA 1 [rowA, rowD15]).1
              (markerKey b.id) =
            some ⟨e, (b.lng, b.lat)⟩) ∧
    (∀ b ∈ [rowA, rowD15], ∀ s : String, b.id = some s →
        ∀ m : Marker, getMarker markersA s = some m →
          getMarker (reconcileMarkers markersA 1 [rowA, rowD15]).1 s =
            some ⟨m.element, (b.lng, b.lat)⟩) ∧
    (∀ k : String, (∀ b ∈ [rowA, rowD15], markerKey b.id ≠ k) →
        getMarker (reconcileMarkers markersA 1 [rowA, rowD15]).1 k =
          none) ∧
    ((∀ b ∈ [rowA, rowD15], b.id ≠ some "undefined") →
        getMarker (removeStaleMarkers markersA [rowA, rowD15])
            "undefined" =
          none) :=
  c9_amended_marker_reconciliation markersA 1 [rowA, rowD15] (by decide)
